import Mathlib

set_option maxHeartbeats 1000000
set_option maxRecDepth 100000

namespace TradingDashboard

/-! Shallow embedding of `src/main.py`, a FastAPI trading-journal backend:
password hashing (passlib bcrypt), JWT session tokens (python-jose),
the `get_current_user` access guard, and the register/login/trade routes.
Machine-level details that no claim depends on are modelled explicitly:
time is a `Nat` counted in minutes, the opaque base64url serialization of
token segments and hash fields is replaced by an injective character
escaping with the same separator-freeness property, and the profit/loss
`Float` field (never computed with) is carried as an `Int`. -/

/-! ### Character escaping (stands in for base64url-style encodings)

The separators used by the modelled serializations are `' '` (header
scheme split), `'.'` (JWT segments), `','` (digest fields) and `'$'`
(bcrypt hash fields).  `encChars` escapes them, so encoded text never
contains a separator; `decChars` is its partial inverse and rejects any
raw separator character, mirroring base64url's restricted alphabet. -/

instance {ε α : Type} [DecidableEq ε] [DecidableEq α] : DecidableEq (Except ε α)
  | .error e1, .error e2 => decidable_of_iff (e1 = e2) (by simp)
  | .error _, .ok _ => isFalse (by simp)
  | .ok _, .error _ => isFalse (by simp)
  | .ok a1, .ok a2 => decidable_of_iff (a1 = a2) (by simp)

def escapeSet : List Char := [' ', '.', ',', '$', '%']

def encChar (c : Char) : List Char :=
  if c = ' ' then ['%', 'a']
  else if c = '.' then ['%', 'b']
  else if c = ',' then ['%', 'c']
  else if c = '$' then ['%', 'd']
  else if c = '%' then ['%', 'e']
  else [c]

def encChars (l : List Char) : List Char :=
  (l.map encChar).flatten

def decEsc (e : Char) : Option Char :=
  if e = 'a' then some ' '
  else if e = 'b' then some '.'
  else if e = 'c' then some ','
  else if e = 'd' then some '$'
  else if e = 'e' then some '%'
  else none

def decChars : List Char → Option (List Char)
  | [] => some []
  | ['%'] => none
  | '%' :: e :: rest2 => (decEsc e).bind (fun x => (decChars rest2).map (x :: ·))
  | c :: rest =>
    if c ∈ escapeSet then none
    else (decChars rest).map (c :: ·)

/-- Python's `str.split(sep)` for a single-character separator: splits on
every occurrence and keeps empty fragments, so `"a b".split(" ") = ["a","b"]`
and `" x".split(" ") = ["", "x"]`. -/
def splitAux (sep : Char) : List Char → List (List Char)
  | [] => [[]]
  | c :: rest =>
    if c = sep then [] :: splitAux sep rest
    else
      match splitAux sep rest with
      | [] => [[c]]
      | h :: t => (c :: h) :: t

/-! ### JWT model (python-jose `jwt.encode` / `jwt.decode`)

A token is a string of three `'.'`-separated segments: subject claim,
expiry claim, and an HMAC signature over the first two segments, exactly
the shape of a JWS compact serialization.  `jwt.decode` parses the
segments, verifies the signature against the key, then validates the
`exp` claim against the current time (python-jose raises
`ExpiredSignatureError` when `exp < now`).  Time is a `Nat` in minutes. -/

structure JwtClaims where
  sub : Option String
  exp : Nat
deriving DecidableEq

inductive JwtError
  | Malformed
  | BadSignature
  | Expired
deriving DecidableEq

/-- Subject segment: `'n'` for an absent claim, `'s'` followed by the
escaped username otherwise. -/
def subSeg (sub : Option String) : List Char :=
  match sub with
  | none => ['n']
  | some s => 's' :: encChars s.data

/-- Expiry segment: the expiry instant in unary (`'x'` repeated), an
injective numeral encoding free of every separator character. -/
def expSeg (exp : Nat) : List Char :=
  List.replicate exp 'x'

def payloadChars (c : JwtClaims) : List Char :=
  subSeg c.sub ++ '.' :: expSeg c.exp

/-- Model of HMAC-SHA256 with the given key: an uninvertible-in-the-model
tag determined by key and message. -/
def hmacSign (key msg : String) : String :=
  String.mk ('h' :: encChars key.data ++ ',' :: encChars msg.data)

def jwt_encode (c : JwtClaims) (key : String) : String :=
  String.mk (payloadChars c ++ '.' :: encChars (hmacSign key (String.mk (payloadChars c))).data)

def parseSubSeg : List Char → Option (Option String)
  | ['n'] => some none
  | 's' :: rest => (decChars rest).map (fun l => some (String.mk l))
  | _ => none

def parseExpSeg (l : List Char) : Option Nat :=
  if l.all (fun c => c = 'x') then some l.length else none

def jwt_decode (s : String) (key : String) (now : Nat) : Except JwtError JwtClaims :=
  match splitAux '.' s.data with
  | [p1, p2, p3] =>
    match parseSubSeg p1, parseExpSeg p2, decChars p3 with
    | some sub, some exp, some sig =>
      if String.mk sig = hmacSign key (String.mk (p1 ++ '.' :: p2)) then
        if exp < now then .error .Expired else .ok { sub := sub, exp := exp }
      else .error .BadSignature
    | _, _, _ => .error .Malformed
  | _ => .error .Malformed

/- `src/main.py` lines 15-17. -/

def SECRET_KEY : String := "cheia-ta-secreta-foarte-lunga-si-sigura"

def ACCESS_TOKEN_EXPIRE_MINUTES : Nat := 60

/-- `create_access_token` (`src/main.py` lines 78-83): copies the claim
data (here: the optional subject), adds `exp = now + 60 minutes`, and
signs with `SECRET_KEY`. -/
def create_access_token (now : Nat) (data_sub : Option String) : String :=
  jwt_encode { sub := data_sub, exp := now + ACCESS_TOKEN_EXPIRE_MINUTES } SECRET_KEY

/-! ### Password hashing model (passlib `CryptContext(schemes=["bcrypt"])`)

A bcrypt modular-crypt string is `$2b$12$<salt>$<digest>`.
`CryptContext.verify` first identifies the hash format and raises
`UnknownHashError` when the string is not a recognizable bcrypt hash;
otherwise it recomputes the digest from the candidate password and the
hash's salt and compares.  The digest is modelled as an injective tag of
(salt, password), standing in for the one-way bcrypt KDF. -/

inductive VerifyError
  | UnknownHash
deriving DecidableEq

def bcryptDigest (salt password : String) : String :=
  String.mk ('b' :: encChars salt.data ++ ',' :: encChars password.data)

/-- `get_password_hash` (`src/main.py` lines 75-76): `pwd_context.hash`;
the randomly drawn salt is threaded as an explicit parameter. -/
def get_password_hash (salt : String) (password : String) : String :=
  String.mk ('$' :: '2' :: 'b' :: '$' :: '1' :: '2' :: '$' ::
    (encChars salt.data ++ '$' :: encChars (bcryptDigest salt password).data))

/-- passlib's hash identification: accepts exactly the strings of the
modelled bcrypt shape, returning the decoded salt and digest. -/
def identifyBcrypt (h : String) : Option (String × String) :=
  match splitAux '$' h.data with
  | [l0, l1, l2, saltE, digestE] =>
    if l0 = [] ∧ l1 = ['2', 'b'] ∧ l2 = ['1', '2'] then
      match decChars saltE, decChars digestE with
      | some salt, some digest => some (String.mk salt, String.mk digest)
      | _, _ => none
    else none
  | _ => none

/-- `verify_password` (`src/main.py` lines 72-73): `pwd_context.verify`,
which raises `UnknownHashError` on an unidentifiable hash and otherwise
returns whether the recomputed digest matches the stored one. -/
def verify_password (plain_password hashed_password : String) : Except VerifyError Bool :=
  match identifyBcrypt hashed_password with
  | none => .error .UnknownHash
  | some (salt, digest) => .ok (bcryptDigest salt plain_password == digest)

/-! ### Data model (`src/main.py` sections 3 and 4)

`UserDB` and `TradeDB` are the two ORM tables; `UserLogin` and
`TradeSchema` are the request bodies.  `TradeSchema` has exactly the
eight fields of section 4 of the source — in particular no owner field.
`DBState` is the persistent store: both tables in insertion order plus
the autoincrement counters for the integer primary keys. -/

structure UserDB where
  id : Nat
  username : String
  hashed_password : String
deriving DecidableEq

structure TradeDB where
  id : Nat
  date : String
  pair : String
  direction : String
  risk : String
  rr : String
  pl : Int
  obs : String
  link : String
  owner_id : Nat
deriving DecidableEq

structure UserLogin where
  username : String
  password : String
deriving DecidableEq

structure TradeSchema where
  date : String
  pair : String
  direction : String
  risk : String
  rr : String
  pl : Int
  obs : String
  link : String
deriving DecidableEq

structure DBState where
  users : List UserDB
  trades : List TradeDB
  next_user_id : Nat
  next_trade_id : Nat
deriving DecidableEq

/-- An HTTP error response as raised via `HTTPException`: status code and
optional detail string. -/
structure HttpError where
  status : Nat
  detail : Option String
deriving DecidableEq

/-- The three observable failure shapes of the access guard:
401 "Not authenticated" (missing or empty header), 401 "Token invalid"
(anything raised inside the `try`, including the re-raised
missing-subject case), and a bare 401 (decoded user not in the DB). -/
inductive AuthFailure
  | notAuthenticated
  | tokenInvalid
  | unauthorized
deriving DecidableEq

def authFailureResponse : AuthFailure → HttpError
  | .notAuthenticated => { status := 401, detail := some "Not authenticated" }
  | .tokenInvalid => { status := 401, detail := some "Token invalid" }
  | .unauthorized => { status := 401, detail := none }

/-- `get_current_user` (`src/main.py` lines 97-116).  Reads the
`Authorization` header; an absent or empty (Python-falsy) header is 401
"Not authenticated".  Inside the `try`: `token.split(" ")[1]` (an
out-of-range index raises `IndexError`), `jwt.decode`, and the
missing-`sub` check — every exception there, including the
`HTTPException` raised for a missing subject, is caught by
`except Exception` and surfaces as 401 "Token invalid".  Finally the
decoded username is looked up; an unknown user is a bare 401. -/
def get_current_user (authorization : Option String) (now : Nat) (db : DBState) :
    Except AuthFailure UserDB :=
  match authorization with
  | none => .error .notAuthenticated
  | some token =>
    if token = "" then .error .notAuthenticated
    else
      match (splitAux ' ' token.data).get? 1 with
      | none => .error .tokenInvalid
      | some cred =>
        match jwt_decode (String.mk cred) SECRET_KEY now with
        | .error _ => .error .tokenInvalid
        | .ok payload =>
          match payload.sub with
          | none => .error .tokenInvalid
          | some username =>
            match db.users.find? (fun u => u.username == username) with
            | none => .error .unauthorized
            | some user => .ok user

/-- `register` (`src/main.py` lines 125-137): reject an existing
username with 400, otherwise insert the new user with a hashed password.
Returns the response together with the resulting store. -/
def register (user : UserLogin) (salt : String) (db : DBState) :
    Except HttpError String × DBState :=
  match db.users.find? (fun x => x.username == user.username) with
  | some _ => (.error { status := 400, detail := some "User already exists" }, db)
  | none =>
    let hashed_pw := get_password_hash salt user.password
    let new_user : UserDB :=
      { id := db.next_user_id, username := user.username, hashed_password := hashed_pw }
    (.ok "User created successfully",
      { db with users := db.users ++ [new_user], next_user_id := db.next_user_id + 1 })

/-- Observable outcome of `login`: a token response, an `HTTPException`,
or an unhandled exception (`verify_password` raising on a malformed
stored hash would propagate out of the handler). -/
inductive LoginResult
  | success (access_token : String) (token_type : String)
  | failure (e : HttpError)
  | exn
deriving DecidableEq

/-- `login` (`src/main.py` lines 140-148): look up the user; if absent
or if the password does not verify, raise the single 401
"Incorrect username or password"; otherwise issue a token for the stored
username. -/
def login (user : UserLogin) (now : Nat) (db : DBState) : LoginResult :=
  match db.users.find? (fun x => x.username == user.username) with
  | none => .failure { status := 401, detail := some "Incorrect username or password" }
  | some db_user =>
    match verify_password user.password db_user.hashed_password with
    | .error _ => .exn
    | .ok false => .failure { status := 401, detail := some "Incorrect username or password" }
    | .ok true => .success (create_access_token now (some db_user.username)) "bearer"

/-- The constant body returned by the trade-mutating routes. -/
structure StatusMsg where
  status : String
deriving DecidableEq

/-- `create_trade` handler body (`src/main.py` lines 151-157):
`TradeDB(**trade.dict(), owner_id=current_user.id)` — every schema field
is copied and the owner is the authenticated user's id. -/
def create_trade (trade : TradeSchema) (db : DBState) (current_user : UserDB) :
    StatusMsg × DBState :=
  let db_trade : TradeDB :=
    { id := db.next_trade_id, date := trade.date, pair := trade.pair,
      direction := trade.direction, risk := trade.risk, rr := trade.rr,
      pl := trade.pl, obs := trade.obs, link := trade.link,
      owner_id := current_user.id }
  ({ status := "success" },
    { db with trades := db.trades ++ [db_trade], next_trade_id := db.next_trade_id + 1 })

/-- `read_trades` handler body (`src/main.py` lines 160-164): the trades
whose `owner_id` equals the authenticated user's id. -/
def read_trades (db : DBState) (current_user : UserDB) : List TradeDB :=
  db.trades.filter (fun t => t.owner_id == current_user.id)

def tradeQuery (trade_id owner : Nat) (t : TradeDB) : Bool :=
  t.id == trade_id && t.owner_id == owner

/-- `delete_trade` handler body (`src/main.py` lines 167-174): find the
first trade with the given id owned by the caller; delete it if present;
in both cases respond `{"status": "deleted"}`. -/
def delete_trade (trade_id : Nat) (db : DBState) (current_user : UserDB) :
    StatusMsg × DBState :=
  match db.trades.find? (tradeQuery trade_id current_user.id) with
  | some _ =>
    ({ status := "deleted" },
      { db with trades := db.trades.eraseP (tradeQuery trade_id current_user.id) })
  | none => ({ status := "deleted" }, db)

/-! ### Protected routes

FastAPI resolves the `Depends(get_current_user)` parameter before the
handler body runs; an `HTTPException` raised there aborts the request.
Each protected route is therefore the guard followed, only on success,
by the handler body. -/

def create_trade_route (authorization : Option String) (now : Nat)
    (trade : TradeSchema) (db : DBState) : Except HttpError StatusMsg × DBState :=
  match get_current_user authorization now db with
  | .error f => (.error (authFailureResponse f), db)
  | .ok current_user =>
    let r := create_trade trade db current_user
    (.ok r.1, r.2)

def read_trades_route (authorization : Option String) (now : Nat)
    (db : DBState) : Except HttpError (List TradeDB) × DBState :=
  match get_current_user authorization now db with
  | .error f => (.error (authFailureResponse f), db)
  | .ok current_user => (.ok (read_trades db current_user), db)

def delete_trade_route (authorization : Option String) (now : Nat)
    (trade_id : Nat) (db : DBState) : Except HttpError StatusMsg × DBState :=
  match get_current_user authorization now db with
  | .error f => (.error (authFailureResponse f), db)
  | .ok current_user =>
    let r := delete_trade trade_id db current_user
    (.ok r.1, r.2)

/-! ### Concrete data used by witnesses and counterexamples -/

def aliceUser : UserDB :=
  { id := 1, username := "alice", hashed_password := get_password_hash "salt1" "pw1" }

def bobUser : UserDB :=
  { id := 2, username := "bob", hashed_password := get_password_hash "salt2" "pw2" }

def exTradeA : TradeDB :=
  { id := 1, date := "2024-01-01", pair := "EURUSD", direction := "long",
    risk := "1", rr := "2", pl := 12, obs := "note", link := "lnk", owner_id := 1 }

def exSchema : TradeSchema :=
  { date := "2024-01-02", pair := "GBPUSD", direction := "short",
    risk := "2", rr := "3", pl := -5, obs := "o", link := "l" }

/-- Two users, no trades. -/
def dbUsers : DBState :=
  { users := [aliceUser, bobUser], trades := [], next_user_id := 3, next_trade_id := 1 }

/-- Two users; one trade owned by alice. -/
def dbTradeA : DBState :=
  { users := [aliceUser, bobUser], trades := [exTradeA], next_user_id := 3, next_trade_id := 2 }

/-- A token issued at minute 0 for alice. -/
def exToken : String := create_access_token 0 (some "alice")

/-- A three-part authorization header carrying a valid token. -/
def exHeader3 : String := "Bearer " ++ exToken ++ " junk"

/-! ### Helper lemmas -/

theorem encChars_nil : encChars [] = [] := rfl

theorem encChars_cons (c : Char) (l : List Char) :
    encChars (c :: l) = encChar c ++ encChars l := by
  simp [encChars]

theorem encChars_append (l1 l2 : List Char) :
    encChars (l1 ++ l2) = encChars l1 ++ encChars l2 := by
  simp [encChars]

theorem decChars_encChars (l : List Char) : decChars (encChars l) = some l := by
  induction l with
  | nil => rfl
  | cons c rest ih =>
    rw [encChars_cons]
    by_cases h1 : c = ' '
    · subst h1; simp [encChar, decChars, decEsc, ih]
    · by_cases h2 : c = '.'
      · subst h2; simp [encChar, decChars, decEsc, ih]
      · by_cases h3 : c = ','
        · subst h3; simp [encChar, decChars, decEsc, ih]
        · by_cases h4 : c = '$'
          · subst h4; simp [encChar, decChars, decEsc, ih]
          · by_cases h5 : c = '%'
            · subst h5; simp [encChar, decChars, decEsc, ih]
            · have hesc : c ∉ escapeSet := by
                simp [escapeSet, h1, h2, h3, h4, h5]
              have henc : encChar c = [c] := by
                simp [encChar, h1, h2, h3, h4, h5]
              rw [henc, List.singleton_append]
              simp [decChars, h5, hesc, ih]

theorem encChars_injective {l1 l2 : List Char} (h : encChars l1 = encChars l2) :
    l1 = l2 := by
  have h1 := decChars_encChars l1
  rw [h, decChars_encChars l2] at h1
  exact (Option.some.injEq _ _ ▸ h1).symm

/-- Every character produced by `encChar` is the escape lead `'%'`, one of
the escape letters, or a character outside the escape set. -/
theorem mem_encChar (d c : Char) (h : d ∈ encChar c) :
    d = '%' ∨ d ∈ ['a', 'b', 'c', 'd', 'e'] ∨ d ∉ escapeSet := by
  by_cases h1 : c = ' '
  · subst h1; simp [encChar] at h; rcases h with h | h <;> simp [h]
  · by_cases h2 : c = '.'
    · subst h2; simp [encChar] at h; rcases h with h | h <;> simp [h]
    · by_cases h3 : c = ','
      · subst h3; simp [encChar] at h; rcases h with h | h <;> simp [h]
      · by_cases h4 : c = '$'
        · subst h4; simp [encChar] at h; rcases h with h | h <;> simp [h]
        · by_cases h5 : c = '%'
          · subst h5; simp [encChar] at h; rcases h with h | h <;> simp [h]
          · simp [encChar, h1, h2, h3, h4, h5] at h
            subst h
            right; right
            simp [escapeSet, h1, h2, h3, h4, h5]

theorem mem_encChars (d : Char) (l : List Char) (h : d ∈ encChars l) :
    d = '%' ∨ d ∈ ['a', 'b', 'c', 'd', 'e'] ∨ d ∉ escapeSet := by
  induction l with
  | nil => simp [encChars_nil] at h
  | cons c rest ih =>
    rw [encChars_cons] at h
    rcases List.mem_append.mp h with h | h
    · exact mem_encChar d c h
    · exact ih h

theorem space_not_mem_encChars (l : List Char) : ' ' ∉ encChars l := by
  intro h
  rcases mem_encChars ' ' l h with h | h | h <;> simp [escapeSet] at h

theorem dot_not_mem_encChars (l : List Char) : '.' ∉ encChars l := by
  intro h
  rcases mem_encChars '.' l h with h | h | h <;> simp [escapeSet] at h

theorem dollar_not_mem_encChars (l : List Char) : '$' ∉ encChars l := by
  intro h
  rcases mem_encChars '$' l h with h | h | h <;> simp [escapeSet] at h

theorem comma_not_mem_encChars (l : List Char) : ',' ∉ encChars l := by
  intro h
  rcases mem_encChars ',' l h with h | h | h <;> simp [escapeSet] at h

theorem splitAux_ne_nil (sep : Char) (l : List Char) : splitAux sep l ≠ [] := by
  cases l with
  | nil => simp [splitAux]
  | cons c rest =>
    simp only [splitAux]
    by_cases h : c = sep
    · simp [h]
    · simp only [h, if_false]
      cases splitAux sep rest <;> simp

theorem splitAux_of_not_mem (sep : Char) (l : List Char) (h : sep ∉ l) :
    splitAux sep l = [l] := by
  induction l with
  | nil => rfl
  | cons c rest ih =>
    have hc : c ≠ sep := fun hh => h (hh ▸ List.mem_cons_self c rest)
    have hr : sep ∉ rest := fun hh => h (List.mem_cons_of_mem c hh)
    simp only [splitAux, hc, if_false]
    rw [ih hr]

theorem splitAux_append_cons (sep : Char) (l1 l2 : List Char) (h : sep ∉ l1) :
    splitAux sep (l1 ++ sep :: l2) = l1 :: splitAux sep l2 := by
  induction l1 with
  | nil => simp [splitAux]
  | cons c rest ih =>
    have hc : c ≠ sep := fun hh => h (hh ▸ List.mem_cons_self c rest)
    have hr : sep ∉ rest := fun hh => h (List.mem_cons_of_mem c hh)
    simp only [List.cons_append, splitAux, hc, if_false]
    rw [List.append_eq, ih hr]

theorem data_mk (l : List Char) : (String.mk l).data = l := rfl

theorem mk_data (s : String) : String.mk s.data = s := rfl

theorem dot_not_mem_subSeg (sub : Option String) : '.' ∉ subSeg sub := by
  cases sub with
  | none => simp [subSeg]
  | some s =>
    intro h
    rcases List.mem_cons.mp h with h | h
    · exact absurd h (by decide)
    · exact dot_not_mem_encChars _ h

theorem dot_not_mem_expSeg (e : Nat) : '.' ∉ expSeg e := by
  intro h
  rw [expSeg, List.mem_replicate] at h
  exact absurd h.2 (by decide)

theorem parseSubSeg_subSeg (sub : Option String) : parseSubSeg (subSeg sub) = some sub := by
  cases sub with
  | none => rfl
  | some s => simp [subSeg, parseSubSeg, decChars_encChars, mk_data]

theorem parseExpSeg_expSeg (e : Nat) : parseExpSeg (expSeg e) = some e := by
  simp [parseExpSeg, expSeg, List.all_eq_true, List.mem_replicate]

/-- Decoding a freshly issued token with the signing key: succeeds with
the embedded claims while the expiry is not in the past, and fails with
`Expired` once `now` passes the expiry instant. -/
theorem jwt_decode_encode (c : JwtClaims) (key : String) (now : Nat) :
    jwt_decode (jwt_encode c key) key now =
      if c.exp < now then Except.error JwtError.Expired else Except.ok c := by
  have hdata : (jwt_encode c key).data =
      subSeg c.sub ++ '.' :: (expSeg c.exp ++ '.' ::
        encChars (hmacSign key (String.mk (payloadChars c))).data) := by
    simp [jwt_encode, payloadChars, data_mk, List.append_assoc]
  have hsplit : splitAux '.' (jwt_encode c key).data =
      [subSeg c.sub, expSeg c.exp,
        encChars (hmacSign key (String.mk (payloadChars c))).data] := by
    rw [hdata, splitAux_append_cons _ _ _ (dot_not_mem_subSeg c.sub),
      splitAux_append_cons _ _ _ (dot_not_mem_expSeg c.exp),
      splitAux_of_not_mem _ _ (dot_not_mem_encChars _)]
  simp only [jwt_decode, hsplit, parseSubSeg_subSeg, parseExpSeg_expSeg,
    decChars_encChars, mk_data, payloadChars]
  simp

theorem dollar_not_mem_nil : '$' ∉ ([] : List Char) := by simp

theorem identifyBcrypt_hash (salt password : String) :
    identifyBcrypt (get_password_hash salt password) =
      some (salt, bcryptDigest salt password) := by
  have hdata : (get_password_hash salt password).data =
      [] ++ '$' :: (['2', 'b'] ++ '$' :: (['1', '2'] ++ '$' ::
        (encChars salt.data ++ '$' :: encChars (bcryptDigest salt password).data))) := rfl
  have hsplit : splitAux '$' (get_password_hash salt password).data =
      [[], ['2', 'b'], ['1', '2'], encChars salt.data,
        encChars (bcryptDigest salt password).data] := by
    rw [hdata, splitAux_append_cons _ _ _ dollar_not_mem_nil,
      splitAux_append_cons _ _ _ (by decide),
      splitAux_append_cons _ _ _ (by decide),
      splitAux_append_cons _ _ _ (dollar_not_mem_encChars _),
      splitAux_of_not_mem _ _ (dollar_not_mem_encChars _)]
  simp [identifyBcrypt, hsplit, decChars_encChars, mk_data]

theorem bcryptDigest_inj (salt p1 p2 : String)
    (h : bcryptDigest salt p1 = bcryptDigest salt p2) : p1 = p2 := by
  have hd : ('b' :: encChars salt.data) ++ ',' :: encChars p1.data =
      ('b' :: encChars salt.data) ++ ',' :: encChars p2.data :=
    congrArg String.data h
  have h2 := List.append_cancel_left hd
  have h3 : encChars p1.data = encChars p2.data := by
    exact (List.cons.injEq _ _ _ _ ▸ h2).2
  have h4 := encChars_injective h3
  have h5 := congrArg String.mk h4
  simpa [mk_data] using h5

/-- `verify_password` on a hash produced by `get_password_hash` returns a
boolean that is true exactly when the candidate equals the hashed
password. -/
theorem verify_password_hash (salt p0 p : String) :
    verify_password p (get_password_hash salt p0) = Except.ok (p == p0) := by
  have hb : (bcryptDigest salt p == bcryptDigest salt p0) = (p == p0) := by
    by_cases hp : p = p0
    · simp [hp]
    · have h1 : (bcryptDigest salt p == bcryptDigest salt p0) = false :=
        beq_eq_false_iff_ne.mpr (fun hh => hp (bcryptDigest_inj _ _ _ hh))
      have h2 : (p == p0) = false := beq_eq_false_iff_ne.mpr hp
      rw [h1, h2]
  rw [verify_password, identifyBcrypt_hash]
  show Except.ok (bcryptDigest salt p == bcryptDigest salt p0) = Except.ok (p == p0)
  rw [hb]

/-- `verify_password` on a string passlib cannot identify as a bcrypt
hash raises (`UnknownHashError`) instead of returning a boolean. -/
theorem verify_password_unidentified (p h : String)
    (hid : identifyBcrypt h = none) :
    verify_password p h = Except.error VerifyError.UnknownHash := by
  rw [verify_password, hid]

theorem data_append (s t : String) : (s ++ t).data = s.data ++ t.data := rfl

theorem two_part_header_data (s tok : String) :
    (s ++ " " ++ tok).data = s.data ++ ' ' :: tok.data := by
  simp [data_append]

theorem three_part_header_data (s tok extra : String) :
    (s ++ " " ++ tok ++ " " ++ extra).data =
      s.data ++ ' ' :: (tok.data ++ ' ' :: extra.data) := by
  simp [data_append]

theorem two_part_header_ne_empty (s tok : String) : s ++ " " ++ tok ≠ "" := by
  intro h
  have h2 : s.data ++ ' ' :: tok.data = [] := by
    rw [← two_part_header_data, h]
  simp at h2

theorem three_part_header_ne_empty (s tok extra : String) :
    s ++ " " ++ tok ++ " " ++ extra ≠ "" := by
  intro h
  have h2 : s.data ++ ' ' :: (tok.data ++ ' ' :: extra.data) = [] := by
    rw [← three_part_header_data, h]
  simp at h2

/-- The guard on a spaceless non-empty header: `token.split(" ")[1]`
raises `IndexError`, caught as 401 "Token invalid". -/
theorem guard_no_space (hdr : String) (now : Nat) (db : DBState)
    (hne : hdr ≠ "") (hs : ' ' ∉ hdr.data) :
    get_current_user (some hdr) now db = Except.error AuthFailure.tokenInvalid := by
  simp only [get_current_user, if_neg hne, splitAux_of_not_mem _ _ hs, List.get?]

/-- The guard on a two-part header whose second part is a token that
decodes to a known user: authenticates as that user, whatever the first
part is. -/
theorem guard_two_part_success (s tok : String) (now : Nat) (db : DBState)
    (claims : JwtClaims) (uname : String) (u : UserDB)
    (hs : ' ' ∉ s.data) (htok : ' ' ∉ tok.data)
    (hdec : jwt_decode tok SECRET_KEY now = Except.ok claims)
    (hsub : claims.sub = some uname)
    (hfind : db.users.find? (fun x => x.username == uname) = some u) :
    get_current_user (some (s ++ " " ++ tok)) now db = Except.ok u := by
  have hsplit : splitAux ' ' (s ++ " " ++ tok).data = [s.data, tok.data] := by
    rw [two_part_header_data, splitAux_append_cons _ _ _ hs,
      splitAux_of_not_mem _ _ htok]
  simp only [get_current_user, if_neg (two_part_header_ne_empty s tok), hsplit,
    List.get?, mk_data, hdec, hsub, hfind]

/-- The guard on a three-part header whose second part is a token that
decodes to a known user: the trailing part is ignored and authentication
succeeds. -/
theorem guard_three_part_success (s tok extra : String) (now : Nat) (db : DBState)
    (claims : JwtClaims) (uname : String) (u : UserDB)
    (hs : ' ' ∉ s.data) (htok : ' ' ∉ tok.data) (hextra : ' ' ∉ extra.data)
    (hdec : jwt_decode tok SECRET_KEY now = Except.ok claims)
    (hsub : claims.sub = some uname)
    (hfind : db.users.find? (fun x => x.username == uname) = some u) :
    get_current_user (some (s ++ " " ++ tok ++ " " ++ extra)) now db = Except.ok u := by
  have hsplit : splitAux ' ' (s ++ " " ++ tok ++ " " ++ extra).data =
      [s.data, tok.data, extra.data] := by
    rw [three_part_header_data, splitAux_append_cons _ _ _ hs,
      splitAux_append_cons _ _ _ htok, splitAux_of_not_mem _ _ hextra]
  simp only [get_current_user, if_neg (three_part_header_ne_empty s tok extra), hsplit,
    List.get?, mk_data, hdec, hsub, hfind]

/-! ### Claims -/

/-- Claim C1: ownership isolation.  For users A and B with distinct ids:
no trade owned by A (in particular the one just created by A) ever
appears in B's trade listing; and when every trade with the requested id
is owned by A, deleting it while authenticated as B deletes nothing —
the response and resulting state are exactly those of deleting an id
that does not exist at all. -/
theorem c1_ownership_isolation (A B : UserDB) (db : DBState) (tr : TradeSchema) (tid : Nat)
    (hAB : A.id ≠ B.id)
    (hOwn : ∀ t ∈ db.trades, t.id = tid → t.owner_id = A.id) :
    (∀ t ∈ read_trades ((create_trade tr db A).2) B, t.owner_id ≠ A.id) ∧
    delete_trade tid db B = ({ status := "deleted" }, db) ∧
    (∀ tid2, (∀ t ∈ db.trades, t.id ≠ tid2) →
      delete_trade tid2 db B = ({ status := "deleted" }, db)) := by
  refine ⟨?_, ?_, ?_⟩
  · intro t ht
    rw [read_trades] at ht
    have h2 := (List.mem_filter.mp ht).2
    have h3 : t.owner_id = B.id := by simpa using h2
    omega
  · have hf : db.trades.find? (tradeQuery tid B.id) = none := by
      rw [List.find?_eq_none]
      intro t ht hq
      rw [tradeQuery, Bool.and_eq_true, beq_iff_eq, beq_iff_eq] at hq
      have := hOwn t ht hq.1
      omega
    simp [delete_trade, hf]
  · intro tid2 habs
    have hf : db.trades.find? (tradeQuery tid2 B.id) = none := by
      rw [List.find?_eq_none]
      intro t ht hq
      rw [tradeQuery, Bool.and_eq_true, beq_iff_eq, beq_iff_eq] at hq
      exact habs t ht hq.1
    simp [delete_trade, hf]

/-- Witness for C1 at concrete data: bob deleting alice's trade leaves
the store unchanged and still answers `{"status": "deleted"}`. -/
theorem c1_witness :
    delete_trade 1 dbTradeA bobUser = ({ status := "deleted" }, dbTradeA) :=
  (c1_ownership_isolation aliceUser bobUser dbTradeA exSchema 1 (by decide) (by decide)).2.1

/-- Claim C2: the persisted trade's owner is always the authenticated
caller.  For every request body `tr` of the trade schema (which has no
owner field), `create_trade` appends exactly one trade and its
`owner_id` is the caller's id — no body value influences it. -/
theorem c2_owner_from_authenticated_caller (tr : TradeSchema) (db : DBState) (u : UserDB) :
    ∃ newT : TradeDB, (create_trade tr db u).2.trades = db.trades ++ [newT] ∧
      newT.owner_id = u.id :=
  ⟨_, rfl, rfl⟩

/-- Claim C3: token round-trip and expiry.  A token issued for `u` at
`t0` embeds expiry `t0 + 60` minutes; decoding strictly before that
instant yields exactly subject `u`, and decoding after it fails with
`Expired`. -/
theorem c3_token_roundtrip_and_expiry (u : String) (t0 t : Nat) :
    (t < t0 + ACCESS_TOKEN_EXPIRE_MINUTES →
      jwt_decode (create_access_token t0 (some u)) SECRET_KEY t =
        Except.ok { sub := some u, exp := t0 + ACCESS_TOKEN_EXPIRE_MINUTES }) ∧
    (t0 + ACCESS_TOKEN_EXPIRE_MINUTES < t →
      jwt_decode (create_access_token t0 (some u)) SECRET_KEY t =
        Except.error JwtError.Expired) := by
  constructor
  · intro h
    rw [create_access_token, jwt_decode_encode]
    refine if_neg ?_
    show ¬ t0 + ACCESS_TOKEN_EXPIRE_MINUTES < t
    omega
  · intro h
    rw [create_access_token, jwt_decode_encode]
    exact if_pos h

/-- Witness for C3: a token issued at minute 0 decodes at minute 59 and
is expired at minute 61. -/
theorem c3_witness :
    jwt_decode (create_access_token 0 (some "alice")) SECRET_KEY 59 =
      Except.ok { sub := some "alice", exp := 60 } ∧
    jwt_decode (create_access_token 0 (some "alice")) SECRET_KEY 61 =
      Except.error JwtError.Expired :=
  ⟨(c3_token_roundtrip_and_expiry "alice" 0 59).1 (by decide),
   (c3_token_roundtrip_and_expiry "alice" 0 61).2 (by decide)⟩

/-- Counterexample to C4 as stated: on the malformed stored hash
`"nothash"`, `verify_password` does not return `false` — passlib's
`CryptContext.verify` raises `UnknownHashError`, which propagates. -/
theorem c4_counterexample :
    verify_password "pw" "nothash" = Except.error VerifyError.UnknownHash := by decide

/-- Claim C4, amended: `verify_password` is total and boolean-valued on
every recognizable bcrypt hash — true exactly when the password matches —
but on a string that is not a recognizable hash it raises
`UnknownHashError` instead of returning `false`. -/
theorem c4_verify_amended (p h salt p0 : String) :
    (identifyBcrypt h = none →
      verify_password p h = Except.error VerifyError.UnknownHash) ∧
    verify_password p (get_password_hash salt p0) = Except.ok (p == p0) :=
  ⟨verify_password_unidentified p h, verify_password_hash salt p0 p⟩

/-- Witness for amended C4 at concrete strings. -/
theorem c4_witness :
    verify_password "pw" "zz" = Except.error VerifyError.UnknownHash ∧
    verify_password "pw1" (get_password_hash "salt1" "pw1") = Except.ok true :=
  ⟨(c4_verify_amended "pw" "zz" "s" "q").1 (by decide),
   (c4_verify_amended "pw1" "zz" "salt1" "pw1").2⟩

/-- Counterexample to C5 as stated: a run in which a deletion occurred
(alice's trade disappears) and a run in which nothing matched (no-op)
produce the identical response, so the response does not report whether
a deletion occurred. -/
theorem c5_counterexample :
    (delete_trade 1 dbTradeA aliceUser).1 = (delete_trade 1 dbUsers aliceUser).1 ∧
    (delete_trade 1 dbTradeA aliceUser).2.trades = [] ∧
    dbTradeA.trades ≠ [] ∧
    (delete_trade 1 dbUsers aliceUser).2 = dbUsers := by decide

/-- Claim C5, amended: the delete response is the constant
`{"status": "deleted"}` whether or not a deletion occurred; absence of a
matching owned trade is a no-op (state unchanged), not an error. -/
theorem c5_delete_response_amended (tid : Nat) (db : DBState) (u : UserDB) :
    (delete_trade tid db u).1 = { status := "deleted" } ∧
    (db.trades.find? (tradeQuery tid u.id) = none → (delete_trade tid db u).2 = db) := by
  constructor
  · cases hf : db.trades.find? (tradeQuery tid u.id) <;> simp [delete_trade, hf]
  · intro h
    simp [delete_trade, h]

/-- Witness for amended C5: deleting an absent id leaves the store
unchanged. -/
theorem c5_witness :
    (delete_trade 1 dbUsers aliceUser).2 = dbUsers :=
  (c5_delete_response_amended 1 dbUsers aliceUser).2 (by decide)

/-- Counterexample to C6 as stated: a header splitting into three
space-separated parts — not of the form `"<scheme> <value>"` — does not
fail; the guard uses the second part as the credential and resolves a
user. -/
theorem c6_counterexample :
    (splitAux ' ' exHeader3.data).length = 3 ∧
    get_current_user (some exHeader3) 5 dbUsers = Except.ok aliceUser := by decide

/-- Claim C6, amended: a non-empty header with no space at all fails
(the `split(" ")[1]` lookup raises, surfacing as 401 "Token invalid" —
the code has no distinct malformed-scheme error), but a header of three
or more space-separated parts is not rejected for its shape: the second
part is used as the credential and can authenticate a user. -/
theorem c6_header_shape_amended (hdr s tok extra : String) (now : Nat) (db : DBState)
    (claims : JwtClaims) (uname : String) (u : UserDB) :
    (hdr ≠ "" → ' ' ∉ hdr.data →
      get_current_user (some hdr) now db = Except.error AuthFailure.tokenInvalid) ∧
    (' ' ∉ s.data → ' ' ∉ tok.data → ' ' ∉ extra.data →
      jwt_decode tok SECRET_KEY now = Except.ok claims →
      claims.sub = some uname →
      db.users.find? (fun x => x.username == uname) = some u →
      get_current_user (some (s ++ " " ++ tok ++ " " ++ extra)) now db = Except.ok u) :=
  ⟨fun h1 h2 => guard_no_space hdr now db h1 h2,
   fun h1 h2 h3 h4 h5 h6 =>
     guard_three_part_success s tok extra now db claims uname u h1 h2 h3 h4 h5 h6⟩

/-- Witness for amended C6: the bare header "Bearer" fails, while a
three-part header with a valid middle token authenticates alice. -/
theorem c6_witness :
    get_current_user (some "Bearer") 5 dbUsers = Except.error AuthFailure.tokenInvalid ∧
    get_current_user (some ("Bearer" ++ " " ++ exToken ++ " " ++ "junk")) 5 dbUsers =
      Except.ok aliceUser :=
  ⟨(c6_header_shape_amended "Bearer" "Bearer" exToken "junk" 5 dbUsers
      { sub := some "alice", exp := 60 } "alice" aliceUser).1 (by decide) (by decide),
   (c6_header_shape_amended "Bearer" "Bearer" exToken "junk" 5 dbUsers
      { sub := some "alice", exp := 60 } "alice" aliceUser).2
    (by decide) (by decide) (by decide) (by decide) (by decide) (by decide)⟩

/-- Claim C7: login failure is indistinguishable across causes — an
unknown username and a known username with a non-verifying password
produce the identical 401 "Incorrect username or password" response. -/
theorem c7_login_failure_indistinguishable (u : UserLogin) (now : Nat) (db : DBState) :
    (db.users.find? (fun x => x.username == u.username) = none →
      login u now db =
        LoginResult.failure { status := 401, detail := some "Incorrect username or password" }) ∧
    (∀ du, db.users.find? (fun x => x.username == u.username) = some du →
      verify_password u.password du.hashed_password = Except.ok false →
      login u now db =
        LoginResult.failure { status := 401, detail := some "Incorrect username or password" }) := by
  constructor
  · intro h
    simp [login, h]
  · intro du h hv
    simp [login, h, hv]

/-- Witness for C7: unknown user "carol" and wrong password for "alice"
get the same response. -/
theorem c7_witness :
    login { username := "carol", password := "pw" } 0 dbUsers =
      LoginResult.failure { status := 401, detail := some "Incorrect username or password" } ∧
    login { username := "alice", password := "wrong" } 0 dbUsers =
      LoginResult.failure { status := 401, detail := some "Incorrect username or password" } :=
  ⟨(c7_login_failure_indistinguishable { username := "carol", password := "pw" } 0 dbUsers).1
      (by decide),
   (c7_login_failure_indistinguishable { username := "alice", password := "wrong" } 0 dbUsers).2
      aliceUser (by decide) (by decide)⟩

/-- Claim C8: registration conflict is atomic.  If some stored user
already has the requested username, `register` fails with the 400
conflict error and returns the store unchanged — the user set and the
first user's record are untouched. -/
theorem c8_register_conflict_atomic (u : UserLogin) (salt : String) (db : DBState) (w : UserDB)
    (hw : w ∈ db.users) (hname : w.username = u.username) :
    register u salt db =
      (Except.error { status := 400, detail := some "User already exists" }, db) := by
  have hs : (db.users.find? (fun x => x.username == u.username)).isSome :=
    List.find?_isSome.mpr ⟨w, hw, by simp [hname]⟩
  obtain ⟨y, hy⟩ := Option.isSome_iff_exists.mp hs
  simp [register, hy]

/-- Witness for C8: re-registering "alice" fails and leaves the store
unchanged. -/
theorem c8_witness :
    register { username := "alice", password := "newpw" } "s9" dbUsers =
      (Except.error { status := 400, detail := some "User already exists" }, dbUsers) :=
  c8_register_conflict_atomic { username := "alice", password := "newpw" } "s9" dbUsers
    aliceUser (by decide) (by decide)

/-- Claim C9: authorization precedes domain logic.  Whenever the access
guard fails, each protected route returns the corresponding 401 response
with the store unchanged — no trade is read or mutated. -/
theorem c9_auth_precedes_domain (authorization : Option String) (now : Nat) (db : DBState)
    (trade : TradeSchema) (trade_id : Nat) (f : AuthFailure)
    (hf : get_current_user authorization now db = Except.error f) :
    create_trade_route authorization now trade db =
      (Except.error (authFailureResponse f), db) ∧
    read_trades_route authorization now db = (Except.error (authFailureResponse f), db) ∧
    delete_trade_route authorization now trade_id db =
      (Except.error (authFailureResponse f), db) := by
  refine ⟨?_, ?_, ?_⟩ <;>
    simp [create_trade_route, read_trades_route, delete_trade_route, hf]

/-- Witness for C9: with no authorization header, all three protected
routes reject and leave the store unchanged. -/
theorem c9_witness :
    create_trade_route none 0 exSchema dbUsers =
      (Except.error (authFailureResponse AuthFailure.notAuthenticated), dbUsers) ∧
    read_trades_route none 0 dbUsers =
      (Except.error (authFailureResponse AuthFailure.notAuthenticated), dbUsers) ∧
    delete_trade_route none 0 1 dbUsers =
      (Except.error (authFailureResponse AuthFailure.notAuthenticated), dbUsers) :=
  c9_auth_precedes_domain none 0 dbUsers exSchema 1 AuthFailure.notAuthenticated rfl

/-- Claim C10: the guard never inspects the scheme token.  For any
space-free first part `s` and any space-free token that decodes
successfully to a user present in the store, the header `s ++ " " ++
token` authenticates as that user, whatever `s` is. -/
theorem c10_scheme_ignored (s tok : String) (now : Nat) (db : DBState)
    (claims : JwtClaims) (uname : String) (u : UserDB)
    (hs : ' ' ∉ s.data) (htok : ' ' ∉ tok.data)
    (hdec : jwt_decode tok SECRET_KEY now = Except.ok claims)
    (hsub : claims.sub = some uname)
    (hfind : db.users.find? (fun x => x.username == uname) = some u) :
    get_current_user (some (s ++ " " ++ tok)) now db = Except.ok u :=
  guard_two_part_success s tok now db claims uname u hs htok hdec hsub hfind

/-- Witness for C10: the non-Bearer scheme "Basic" with a valid token
authenticates alice. -/
theorem c10_witness :
    get_current_user (some ("Basic" ++ " " ++ exToken)) 5 dbUsers = Except.ok aliceUser :=
  c10_scheme_ignored "Basic" exToken 5 dbUsers { sub := some "alice", exp := 60 } "alice"
    aliceUser (by decide) (by decide) (by decide) (by decide) (by decide)

end TradingDashboard
